import Mathlib

/-!
Verification of the rational-value component (src/isl_val.c) and of the
parametric integer programming core (src/isl_tab_pip.c) of the isl library.

The first part embeds the exact-rational value type: a value is a pair of
arbitrary-precision integers (n, d).  Canonical states are integers (d = 1),
reduced rationals (d > 0, coprime), plus-infinity (n > 0, d = 0),
minus-infinity (n < 0, d = 0) and NaN (n = 0, d = 0).  Every function below
is a direct translation of the corresponding C function; the C error return
(NULL after isl_die) is modelled by Option.none.  GMP division primitives
are translated by the Lean functions with identical rounding behaviour:
isl_int_fdiv_q is Int.fdiv, isl_int_fdiv_r is Int.fmod, isl_int_cdiv_q is
ceiling division, isl_int_tdiv_q is Int.tdiv, isl_int_gcd is Int.gcd, and
isl_int_divexact is used only on exact multiples, where it agrees with
Int division.
-/

/-- A rational value: numerator and denominator, from struct isl_val. -/
structure isl_val where
  n : Int
  d : Int
deriving DecidableEq

/-- Translation of isl_val_zero: the integer zero. -/
def isl_val_zero : isl_val := ⟨0, 1⟩

/-- Translation of isl_val_one: the integer one. -/
def isl_val_one : isl_val := ⟨1, 1⟩

/-- Translation of isl_val_nan. -/
def isl_val_nan : isl_val := ⟨0, 0⟩

/-- Translation of isl_val_infty. -/
def isl_val_infty : isl_val := ⟨1, 0⟩

/-- Translation of isl_val_neginfty. -/
def isl_val_neginfty : isl_val := ⟨-1, 0⟩

/-- Translation of isl_val_int_from_si. -/
def isl_val_int_from_si (i : Int) : isl_val := ⟨i, 1⟩

/-- Translation of isl_val_is_int: the denominator is one. -/
def isl_val_is_int (v : isl_val) : Bool := v.d == 1

/-- Translation of isl_val_is_rat: the denominator is non-zero. -/
def isl_val_is_rat (v : isl_val) : Bool := !(v.d == 0)

/-- Translation of isl_val_is_nan: numerator and denominator are zero. -/
def isl_val_is_nan (v : isl_val) : Bool := v.n == 0 && v.d == 0

/-- Translation of isl_val_is_infty. -/
def isl_val_is_infty (v : isl_val) : Bool := decide (0 < v.n) && v.d == 0

/-- Translation of isl_val_is_neginfty. -/
def isl_val_is_neginfty (v : isl_val) : Bool := decide (v.n < 0) && v.d == 0

/-- Translation of isl_val_is_zero. -/
def isl_val_is_zero (v : isl_val) : Bool := v.n == 0 && !(v.d == 0)

/-- Translation of isl_val_is_one: the test compares numerator and
denominator for equality and nothing else. -/
def isl_val_is_one (v : isl_val) : Bool := v.n == v.d

/-- Translation of isl_val_is_negone. -/
def isl_val_is_negone (v : isl_val) : Bool :=
  decide (v.n < 0) && v.n.natAbs == v.d.natAbs

/-- Translation of isl_val_is_pos. -/
def isl_val_is_pos (v : isl_val) : Bool := decide (0 < v.n)

/-- Translation of isl_val_is_neg. -/
def isl_val_is_neg (v : isl_val) : Bool := decide (v.n < 0)

/-- Translation of isl_val_is_nonneg. -/
def isl_val_is_nonneg (v : isl_val) : Bool :=
  if isl_val_is_nan v then false else decide (0 ≤ v.n)

/-- Translation of isl_val_is_nonpos. -/
def isl_val_is_nonpos (v : isl_val) : Bool :=
  if isl_val_is_nan v then false else decide (v.n ≤ 0)

/-- Translation of isl_val_set_nan. -/
def isl_val_set_nan (v : isl_val) : isl_val :=
  if isl_val_is_nan v then v else ⟨0, 0⟩

/-- Translation of isl_val_set_si. -/
def isl_val_set_si (v : isl_val) (i : Int) : isl_val :=
  if isl_val_is_int v && v.n == i then v else ⟨i, 1⟩

/-- Translation of isl_val_set_zero. -/
def isl_val_set_zero (v : isl_val) : isl_val := isl_val_set_si v 0

/-- Translation of isl_val_normalize: make the denominator of a rational
value positive and remove the common divisor of numerator and
denominator.  Division here is exact, so the Int division agrees with
isl_int_divexact. -/
def isl_val_normalize (v : isl_val) : isl_val :=
  if isl_val_is_int v then v
  else if !isl_val_is_rat v then v
  else
    let w : isl_val := if v.d < 0 then ⟨-v.n, -v.d⟩ else v
    let g : Int := Int.gcd w.n w.d
    if g == 1 then w else ⟨w.n / g, w.d / g⟩

/-- Translation of isl_val_neg. -/
def isl_val_neg (v : isl_val) : isl_val :=
  if isl_val_is_nan v then v
  else if isl_val_is_zero v then v
  else ⟨-v.n, v.d⟩

/-- Translation of isl_val_abs. -/
def isl_val_abs (v : isl_val) : isl_val :=
  if isl_val_is_nan v then v
  else if isl_val_is_nonneg v then v
  else isl_val_neg v

/-- Translation of isl_val_floor: isl_int_fdiv_q is Int.fdiv. -/
def isl_val_floor (v : isl_val) : isl_val :=
  if isl_val_is_int v then v
  else if !isl_val_is_rat v then v
  else ⟨Int.fdiv v.n v.d, 1⟩

/-- Ceiling division, the translation of isl_int_cdiv_q. -/
def cdiv_q (a b : Int) : Int := -(Int.fdiv (-a) b)

/-- Translation of isl_val_ceil. -/
def isl_val_ceil (v : isl_val) : isl_val :=
  if isl_val_is_int v then v
  else if !isl_val_is_rat v then v
  else ⟨cdiv_q v.n v.d, 1⟩

/-- Translation of isl_val_trunc: isl_int_tdiv_q is Int.tdiv. -/
def isl_val_trunc (v : isl_val) : isl_val :=
  if isl_val_is_int v then v
  else if !isl_val_is_rat v then v
  else ⟨Int.tdiv v.n v.d, 1⟩

/-- Translation of isl_val_2exp.  The exponent must be an integer value and
its magnitude must fit in the platform unsigned integer; the platform
fits-check is abstracted as the parameter f.  On the error paths the C
function frees its argument and returns NULL, modelled by none. -/
def isl_val_2exp (f : Int → Bool) (v : isl_val) : Option isl_val :=
  if !isl_val_is_int v then none
  else
    let m : Int := if isl_val_is_neg v then -v.n else v.n
    if !f m then none
    else if isl_val_is_neg v then some ⟨1, v.d * 2 ^ m.toNat⟩
    else some ⟨v.d * 2 ^ m.toNat, v.d⟩

/-- Translation of isl_val_eq. -/
def isl_val_eq (v1 v2 : isl_val) : Bool :=
  if isl_val_is_nan v1 || isl_val_is_nan v2 then false
  else v1.n == v2.n && v1.d == v2.d

/-- Translation of isl_val_ne. -/
def isl_val_ne (v1 v2 : isl_val) : Bool :=
  if isl_val_is_nan v1 || isl_val_is_nan v2 then false
  else !(v1.n == v2.n) || !(v1.d == v2.d)

/-- Translation of isl_val_lt. -/
def isl_val_lt (v1 v2 : isl_val) : Bool :=
  if isl_val_is_int v1 && isl_val_is_int v2 then decide (v1.n < v2.n)
  else if isl_val_is_nan v1 || isl_val_is_nan v2 then false
  else if isl_val_eq v1 v2 then false
  else if isl_val_is_infty v2 then true
  else if isl_val_is_infty v1 then false
  else if isl_val_is_neginfty v1 then true
  else if isl_val_is_neginfty v2 then false
  else decide (v1.n * v2.d - v2.n * v1.d < 0)

/-- Translation of isl_val_gt. -/
def isl_val_gt (v1 v2 : isl_val) : Bool := isl_val_lt v2 v1

/-- Translation of isl_val_le. -/
def isl_val_le (v1 v2 : isl_val) : Bool :=
  if isl_val_is_int v1 && isl_val_is_int v2 then decide (v1.n ≤ v2.n)
  else if isl_val_is_nan v1 || isl_val_is_nan v2 then false
  else if isl_val_eq v1 v2 then true
  else if isl_val_is_infty v2 then true
  else if isl_val_is_infty v1 then false
  else if isl_val_is_neginfty v1 then true
  else if isl_val_is_neginfty v2 then false
  else decide (v1.n * v2.d - v2.n * v1.d ≤ 0)

/-- Translation of isl_val_ge. -/
def isl_val_ge (v1 v2 : isl_val) : Bool := isl_val_le v2 v1

/-- Translation of isl_val_min. -/
def isl_val_min (v1 v2 : isl_val) : isl_val :=
  if isl_val_is_nan v1 then v1
  else if isl_val_is_nan v2 then v2
  else if isl_val_le v1 v2 then v1 else v2

/-- Translation of isl_val_max. -/
def isl_val_max (v1 v2 : isl_val) : isl_val :=
  if isl_val_is_nan v1 then v1
  else if isl_val_is_nan v2 then v2
  else if isl_val_ge v1 v2 then v1 else v2

/-- Translation of isl_val_add. -/
def isl_val_add (v1 v2 : isl_val) : isl_val :=
  if isl_val_is_nan v1 then v1
  else if isl_val_is_nan v2 then v2
  else if (isl_val_is_infty v1 && isl_val_is_neginfty v2) ||
          (isl_val_is_neginfty v1 && isl_val_is_infty v2) then
    isl_val_set_nan v1
  else if isl_val_is_infty v1 || isl_val_is_neginfty v1 then v1
  else if isl_val_is_infty v2 || isl_val_is_neginfty v2 then v2
  else if isl_val_is_zero v1 then v2
  else if isl_val_is_zero v2 then v1
  else if isl_val_is_int v1 && isl_val_is_int v2 then ⟨v1.n + v2.n, v1.d⟩
  else if v1.d == v2.d then isl_val_normalize ⟨v1.n + v2.n, v1.d⟩
  else isl_val_normalize ⟨v1.n * v2.d + v2.n * v1.d, v1.d * v2.d⟩

/-- Translation of isl_val_add_ui: isl_int_addmul_ui adds d times u to n. -/
def isl_val_add_ui (v1 : isl_val) (u : Nat) : isl_val :=
  if !isl_val_is_rat v1 then v1
  else if u == 0 then v1
  else ⟨v1.n + v1.d * u, v1.d⟩

/-- Translation of isl_val_sub. -/
def isl_val_sub (v1 v2 : isl_val) : isl_val :=
  if isl_val_is_nan v1 then v1
  else if isl_val_is_nan v2 then v2
  else if (isl_val_is_infty v1 && isl_val_is_infty v2) ||
          (isl_val_is_neginfty v1 && isl_val_is_neginfty v2) then
    isl_val_set_nan v1
  else if isl_val_is_infty v1 || isl_val_is_neginfty v1 then v1
  else if isl_val_is_infty v2 || isl_val_is_neginfty v2 then isl_val_neg v2
  else if isl_val_is_zero v2 then v1
  else if isl_val_is_zero v1 then isl_val_neg v2
  else if isl_val_is_int v1 && isl_val_is_int v2 then ⟨v1.n - v2.n, v1.d⟩
  else if v1.d == v2.d then isl_val_normalize ⟨v1.n - v2.n, v1.d⟩
  else isl_val_normalize ⟨v1.n * v2.d - v2.n * v1.d, v1.d * v2.d⟩

/-- Translation of isl_val_sub_ui. -/
def isl_val_sub_ui (v1 : isl_val) (u : Nat) : isl_val :=
  if !isl_val_is_rat v1 then v1
  else if u == 0 then v1
  else ⟨v1.n - v1.d * u, v1.d⟩

/-- Translation of isl_val_mul. -/
def isl_val_mul (v1 v2 : isl_val) : isl_val :=
  if isl_val_is_nan v1 then v1
  else if isl_val_is_nan v2 then v2
  else if (!isl_val_is_rat v1 && isl_val_is_zero v2) ||
          (isl_val_is_zero v1 && !isl_val_is_rat v2) then
    isl_val_set_nan v1
  else if isl_val_is_zero v1 then v1
  else if isl_val_is_zero v2 then v2
  else if isl_val_is_infty v1 || isl_val_is_neginfty v1 then
    if isl_val_is_neg v2 then isl_val_neg v1 else v1
  else if isl_val_is_infty v2 || isl_val_is_neginfty v2 then
    if isl_val_is_neg v1 then isl_val_neg v2 else v2
  else if isl_val_is_int v1 && isl_val_is_int v2 then ⟨v1.n * v2.n, v1.d⟩
  else isl_val_normalize ⟨v1.n * v2.n, v1.d * v2.d⟩

/-- Translation of isl_val_mul_ui. -/
def isl_val_mul_ui (v1 : isl_val) (u : Nat) : isl_val :=
  if isl_val_is_nan v1 then v1
  else if !isl_val_is_rat v1 then
    if u == 0 then isl_val_set_nan v1 else v1
  else if u == 1 then v1
  else isl_val_normalize ⟨v1.n * u, v1.d⟩

/-- Translation of isl_val_div. -/
def isl_val_div (v1 v2 : isl_val) : isl_val :=
  if isl_val_is_nan v1 then v1
  else if isl_val_is_nan v2 then v2
  else if isl_val_is_zero v2 || (!isl_val_is_rat v1 && !isl_val_is_rat v2) then
    isl_val_set_nan v1
  else if isl_val_is_zero v1 then v1
  else if isl_val_is_infty v1 || isl_val_is_neginfty v1 then
    if isl_val_is_neg v2 then isl_val_neg v1 else v1
  else if isl_val_is_infty v2 || isl_val_is_neginfty v2 then
    isl_val_set_zero v1
  else if isl_val_is_int v2 then isl_val_normalize ⟨v1.n, v1.d * v2.n⟩
  else isl_val_normalize ⟨v1.n * v2.d, v1.d * v2.n⟩

/-- Translation of isl_val_mod.  Both arguments must be integer values,
otherwise the C function raises InvalidArgument and returns NULL,
modelled by none.  isl_int_fdiv_r is Int.fmod; the C behaviour on a zero
second argument is undefined there and Int.fmod by zero returns the
first argument. -/
def isl_val_mod (v1 v2 : isl_val) : Option isl_val :=
  if !(isl_val_is_int v1 && isl_val_is_int v2) then none
  else if isl_val_is_nonneg v1 && isl_val_lt v1 v2 then some v1
  else some ⟨Int.fmod v1.n v2.n, v1.d⟩

/-- Translation of isl_val_gcd.  Both arguments must be integer values,
otherwise the C function raises InvalidArgument and returns NULL,
modelled by none. -/
def isl_val_gcd (v1 v2 : isl_val) : Option isl_val :=
  if !(isl_val_is_int v1 && isl_val_is_int v2) then none
  else if isl_val_eq v1 v2 then some v1
  else if isl_val_is_one v1 then some v1
  else if isl_val_is_one v2 then some v2
  else some ⟨Int.gcd v1.n v2.n, v1.d⟩

/-- Translation of isl_val_gcdext with both output pointers requested.
The external isl_int_gcdext is the extended gcd of the arbitrary
precision integer library; it is modelled by the Bezout coefficients of
Mathlib.  Both denominators of the coefficient results are set to one,
exactly as in the C code. -/
def isl_val_gcdext (v1 v2 : isl_val) : Option (isl_val × isl_val × isl_val) :=
  if !(isl_val_is_int v1 && isl_val_is_int v2) then none
  else some (⟨Int.gcd v1.n v2.n, v1.d⟩,
             ⟨Int.gcdA v1.n v2.n, 1⟩,
             ⟨Int.gcdB v1.n v2.n, 1⟩)

/-- The canonical-form predicate of the specification: a value is canonical
when the denominator is zero (one of NaN and the two infinities) or the
denominator is positive and coprime with the numerator (integers have
denominator one and are covered by the second disjunct). -/
def canonical (v : isl_val) : Bool :=
  v.d == 0 || (decide (0 < v.d) && Int.gcd v.n v.d == 1)

/-- Canonicity of an Option result: none (the error return) is accepted,
a value must be canonical. -/
def canonical_opt (o : Option isl_val) : Bool := o.all canonical

/-- Canonicity of the triple returned by the extended gcd. -/
def canonical_opt3 (o : Option (isl_val × isl_val × isl_val)) : Bool :=
  o.all fun t => canonical t.1 && canonical t.2.1 && canonical t.2.2

theorem canonical_of_d_one {v : isl_val} (h : v.d = 1) : canonical v = true := by
  simp [canonical, h]

theorem gcd_add_mul_den {a b c : Int} (h : Int.gcd a b = 1) :
    Int.gcd (a + b * c) b = 1 := by
  rw [Int.gcd_eq_one_iff_coprime] at h ⊢
  have h2 : IsCoprime (a + b * c + b * (-c)) b := by
    have he : a + b * c + b * (-c) = a := by ring
    rwa [he]
  exact h2.of_add_mul_left_left

theorem canonical_reduce {w : isl_val} (hw : 0 < w.d) :
    canonical (if Int.gcd w.n w.d == 1 then w
               else (⟨w.n / Int.gcd w.n w.d, w.d / Int.gcd w.n w.d⟩ : isl_val)) = true := by
  by_cases hg1 : Int.gcd w.n w.d = 1
  · simp [canonical, hg1, hw]
  · have hg : 0 < Int.gcd w.n w.d :=
      Int.gcd_pos_of_ne_zero_right _ (by omega)
    have hco := Int.gcd_div_gcd_div_gcd hg
    have hdvd : ((Int.gcd w.n w.d : Int)) ∣ w.d := Int.gcd_dvd_right
    obtain ⟨k, hk⟩ := hdvd
    have hgpos : (0 : Int) < (Int.gcd w.n w.d : Int) := by exact_mod_cast hg
    have hne : ((Int.gcd w.n w.d : Int)) ≠ 0 := by omega
    have hq : w.d / (Int.gcd w.n w.d : Int) = k := by
      nth_rewrite 1 [hk]
      exact Int.mul_ediv_cancel_left _ hne
    have hkpos : 0 < k := by nlinarith [hk, hw, hgpos]
    rw [hq] at hco
    simp only [hg1, beq_iff_eq, if_false]
    simp [canonical, hq, hkpos, hco]

theorem canonical_normalize (v : isl_val) : canonical (isl_val_normalize v) = true := by
  by_cases h1 : v.d = 1
  · simp [isl_val_normalize, isl_val_is_int, h1, canonical]
  by_cases h2 : v.d = 0
  · simp [isl_val_normalize, isl_val_is_int, isl_val_is_rat, h1, h2, canonical]
  rcases lt_or_gt_of_ne h2 with hneg | hpos
  · have key := canonical_reduce (w := ⟨-v.n, -v.d⟩) (by simp; omega)
    simpa [isl_val_normalize, isl_val_is_int, isl_val_is_rat, h1, h2, hneg,
           not_lt.mpr (le_of_lt hneg)] using key
  · have key := canonical_reduce (w := v) hpos
    simpa [isl_val_normalize, isl_val_is_int, isl_val_is_rat, h1, h2,
           not_lt.mpr (le_of_lt hpos)] using key

theorem canonical_neg {v : isl_val} (h : canonical v = true) :
    canonical (isl_val_neg v) = true := by
  unfold isl_val_neg
  split
  · exact h
  split
  · exact h
  · simpa [canonical, Int.neg_gcd] using h

theorem canonical_set_nan {v : isl_val} (h : canonical v = true) :
    canonical (isl_val_set_nan v) = true := by
  unfold isl_val_set_nan
  split
  · exact h
  · rfl

theorem canonical_set_zero {v : isl_val} (h : canonical v = true) :
    canonical (isl_val_set_zero v) = true := by
  unfold isl_val_set_zero isl_val_set_si
  split
  · exact h
  · rfl

theorem canonical_add {v1 v2 : isl_val} (h1 : canonical v1 = true)
    (h2 : canonical v2 = true) : canonical (isl_val_add v1 v2) = true := by
  unfold isl_val_add
  split
  · exact h1
  split
  · exact h2
  split
  · exact canonical_set_nan h1
  split
  · exact h1
  split
  · exact h2
  split
  · exact h2
  split
  · exact h1
  split
  · next h =>
    have hd : v1.d = 1 := by
      simp [isl_val_is_int] at h
      exact h.1
    exact canonical_of_d_one hd
  split
  · exact canonical_normalize _
  · exact canonical_normalize _

theorem canonical_sub {v1 v2 : isl_val} (h1 : canonical v1 = true)
    (h2 : canonical v2 = true) : canonical (isl_val_sub v1 v2) = true := by
  unfold isl_val_sub
  split
  · exact h1
  split
  · exact h2
  split
  · exact canonical_set_nan h1
  split
  · exact h1
  split
  · exact canonical_neg h2
  split
  · exact h1
  split
  · exact canonical_neg h2
  split
  · next h =>
    have hd : v1.d = 1 := by
      simp [isl_val_is_int] at h
      exact h.1
    exact canonical_of_d_one hd
  split
  · exact canonical_normalize _
  · exact canonical_normalize _

theorem canonical_mul {v1 v2 : isl_val} (h1 : canonical v1 = true)
    (h2 : canonical v2 = true) : canonical (isl_val_mul v1 v2) = true := by
  unfold isl_val_mul
  split
  · exact h1
  split
  · exact h2
  split
  · exact canonical_set_nan h1
  split
  · exact h1
  split
  · exact h2
  split
  · split
    · exact canonical_neg h1
    · exact h1
  split
  · split
    · exact canonical_neg h2
    · exact h2
  split
  · next h =>
    have hd : v1.d = 1 := by
      simp [isl_val_is_int] at h
      exact h.1
    exact canonical_of_d_one hd
  · exact canonical_normalize _

theorem canonical_div {v1 v2 : isl_val} (h1 : canonical v1 = true)
    (h2 : canonical v2 = true) : canonical (isl_val_div v1 v2) = true := by
  unfold isl_val_div
  split
  · exact h1
  split
  · exact h2
  split
  · exact canonical_set_nan h1
  split
  · exact h1
  split
  · split
    · exact canonical_neg h1
    · exact h1
  split
  · exact canonical_set_zero h1
  split
  · exact canonical_normalize _
  · exact canonical_normalize _

theorem canonical_min {v1 v2 : isl_val} (h1 : canonical v1 = true)
    (h2 : canonical v2 = true) : canonical (isl_val_min v1 v2) = true := by
  unfold isl_val_min
  split
  · exact h1
  split
  · exact h2
  split
  · exact h1
  · exact h2

theorem canonical_max {v1 v2 : isl_val} (h1 : canonical v1 = true)
    (h2 : canonical v2 = true) : canonical (isl_val_max v1 v2) = true := by
  unfold isl_val_max
  split
  · exact h1
  split
  · exact h2
  split
  · exact h1
  · exact h2

theorem canonical_abs {v : isl_val} (h : canonical v = true) :
    canonical (isl_val_abs v) = true := by
  unfold isl_val_abs
  split
  · exact h
  split
  · exact h
  · exact canonical_neg h

theorem canonical_floor {v : isl_val} (h : canonical v = true) :
    canonical (isl_val_floor v) = true := by
  unfold isl_val_floor
  split
  · exact h
  split
  · exact h
  · exact canonical_of_d_one rfl

theorem canonical_ceil {v : isl_val} (h : canonical v = true) :
    canonical (isl_val_ceil v) = true := by
  unfold isl_val_ceil
  split
  · exact h
  split
  · exact h
  · exact canonical_of_d_one rfl

theorem canonical_trunc {v : isl_val} (h : canonical v = true) :
    canonical (isl_val_trunc v) = true := by
  unfold isl_val_trunc
  split
  · exact h
  split
  · exact h
  · exact canonical_of_d_one rfl

theorem canonical_add_ui {v1 : isl_val} (u : Nat) (h1 : canonical v1 = true) :
    canonical (isl_val_add_ui v1 u) = true := by
  by_cases hrat : isl_val_is_rat v1
  · by_cases hu : u = 0
    · simpa [isl_val_add_ui, hrat, hu] using h1
    · have hd : v1.d ≠ 0 := by simpa [isl_val_is_rat] using hrat
      have hc : 0 < v1.d ∧ Int.gcd v1.n v1.d = 1 := by
        simpa [canonical, hd] using h1
      have hg := gcd_add_mul_den (c := (u : Int)) hc.2
      simp [isl_val_add_ui, hrat, hu, canonical, hc.1, hg]
  · simpa [isl_val_add_ui, hrat] using h1

theorem canonical_sub_ui {v1 : isl_val} (u : Nat) (h1 : canonical v1 = true) :
    canonical (isl_val_sub_ui v1 u) = true := by
  by_cases hrat : isl_val_is_rat v1
  · by_cases hu : u = 0
    · simpa [isl_val_sub_ui, hrat, hu] using h1
    · have hd : v1.d ≠ 0 := by simpa [isl_val_is_rat] using hrat
      have hc : 0 < v1.d ∧ Int.gcd v1.n v1.d = 1 := by
        simpa [canonical, hd] using h1
      have hg : Int.gcd (v1.n - v1.d * u) v1.d = 1 := by
        have h0 := gcd_add_mul_den (c := -(u : Int)) hc.2
        simpa [mul_neg, ← sub_eq_add_neg] using h0
      simp [isl_val_sub_ui, hrat, hu, canonical, hc.1, hg]
  · simpa [isl_val_sub_ui, hrat] using h1

theorem canonical_mul_ui {v1 : isl_val} (u : Nat) (h1 : canonical v1 = true) :
    canonical (isl_val_mul_ui v1 u) = true := by
  unfold isl_val_mul_ui
  split
  · exact h1
  split
  · split
    · exact canonical_set_nan h1
    · exact h1
  split
  · exact h1
  · exact canonical_normalize _

theorem canonical_2exp (f : Int → Bool) {v : isl_val} (h : canonical v = true) :
    canonical_opt (isl_val_2exp f v) = true := by
  unfold isl_val_2exp canonical_opt
  split
  · rfl
  · next hint =>
    have hd : v.d = 1 := by
      simp [isl_val_is_int] at hint
      exact hint
    by_cases hneg : isl_val_is_neg v
    · by_cases hf : f (-v.n)
      · have hp : (0 : Int) < 2 ^ (-v.n).toNat := by positivity
        simp [hneg, hf, Option.all, canonical, hd, hp, Int.one_gcd]
      · simp [hneg, hf, Option.all]
    · by_cases hf : f v.n
      · simp [hneg, hf, Option.all, canonical, hd]
      · simp [hneg, hf, Option.all]

theorem canonical_mod {v1 v2 : isl_val} (h1 : canonical v1 = true) :
    canonical_opt (isl_val_mod v1 v2) = true := by
  unfold isl_val_mod canonical_opt
  split
  · rfl
  · next hint =>
    have hd : v1.d = 1 := by
      simp [isl_val_is_int] at hint
      exact hint.1
    split
    · simpa [Option.all] using h1
    · simpa [Option.all] using canonical_of_d_one (v := ⟨Int.fmod v1.n v2.n, v1.d⟩) hd

theorem canonical_gcd {v1 v2 : isl_val} (h1 : canonical v1 = true)
    (h2 : canonical v2 = true) : canonical_opt (isl_val_gcd v1 v2) = true := by
  unfold isl_val_gcd canonical_opt
  split
  · rfl
  · next hint =>
    have hd : v1.d = 1 := by
      simp [isl_val_is_int] at hint
      exact hint.1
    split
    · simpa [Option.all] using h1
    split
    · simpa [Option.all] using h1
    split
    · simpa [Option.all] using h2
    · simpa [Option.all] using
        canonical_of_d_one (v := ⟨(Int.gcd v1.n v2.n : Int), v1.d⟩) hd

theorem canonical_gcdext {v1 v2 : isl_val} (h1 : canonical v1 = true) :
    canonical_opt3 (isl_val_gcdext v1 v2) = true := by
  unfold isl_val_gcdext canonical_opt3
  split
  · rfl
  · next hint =>
    have hd : v1.d = 1 := by
      simp [isl_val_is_int] at hint
      exact hint.1
    simp [Option.all, canonical, hd]

/-- Claim C9: the public predicate isl_val_is_one applied to the NaN value
(n = 0, d = 0) returns true, because the predicate only compares n with d
and does not exclude a zero denominator; NaN is thereby classified as
equal to one while isl_val_is_int, isl_val_is_rat and isl_val_is_zero all
return false on it. -/
theorem C9_is_one_of_nan :
    isl_val_is_one isl_val_nan = true ∧
    isl_val_is_int isl_val_nan = false ∧
    isl_val_is_rat isl_val_nan = false ∧
    isl_val_is_zero isl_val_nan = false := by decide

/-- Claim C10: for every pair of values with at least one NaN operand,
isl_val_eq and isl_val_ne both return false, as do isl_val_lt,
isl_val_le, isl_val_gt and isl_val_ge; in particular isl_val_ne is not
the logical negation of isl_val_eq and NaN compares neither equal nor
different to itself. -/
theorem C10_nan_incomparable (v1 v2 : isl_val)
    (h : isl_val_is_nan v1 = true ∨ isl_val_is_nan v2 = true) :
    isl_val_eq v1 v2 = false ∧ isl_val_ne v1 v2 = false ∧
    isl_val_lt v1 v2 = false ∧ isl_val_le v1 v2 = false ∧
    isl_val_gt v1 v2 = false ∧ isl_val_ge v1 v2 = false := by
  have hnan : ∀ w : isl_val, isl_val_is_nan w = true → isl_val_is_int w = false := by
    intro w hw
    simp [isl_val_is_nan] at hw
    simp [isl_val_is_int, hw.2]
  have hor : (isl_val_is_nan v1 || isl_val_is_nan v2) = true := by
    rcases h with h | h <;> simp [h]
  have hor2 : (isl_val_is_nan v2 || isl_val_is_nan v1) = true := by
    rcases h with h | h <;> simp [h]
  have hint12 : (isl_val_is_int v1 && isl_val_is_int v2) = false := by
    rcases h with h | h
    · simp [hnan v1 h]
    · simp [hnan v2 h]
  have hint21 : (isl_val_is_int v2 && isl_val_is_int v1) = false := by
    rcases h with h | h
    · simp [hnan v1 h]
    · simp [hnan v2 h]
  refine ⟨?_, ?_, ?_, ?_, ?_, ?_⟩
  · simp [isl_val_eq, hor]
  · simp [isl_val_ne, hor]
  · simp [isl_val_lt, hint12, hor]
  · simp [isl_val_le, hint12, hor]
  · simp [isl_val_gt, isl_val_lt, hint21, hor2]
  · simp [isl_val_ge, isl_val_le, hint21, hor2]

/-- Witness for C10 at a concrete input: NaN compares neither equal nor
different nor ordered with respect to itself. -/
theorem C10_witness :
    isl_val_is_nan isl_val_nan = true ∧
    isl_val_eq isl_val_nan isl_val_nan = false ∧
    isl_val_ne isl_val_nan isl_val_nan = false ∧
    isl_val_lt isl_val_nan isl_val_nan = false ∧
    isl_val_le isl_val_nan isl_val_nan = false ∧
    isl_val_gt isl_val_nan isl_val_nan = false ∧
    isl_val_ge isl_val_nan isl_val_nan = false := by
  have hmain := C10_nan_incomparable isl_val_nan isl_val_nan (Or.inl (by decide))
  exact ⟨by decide, hmain.1, hmain.2.1, hmain.2.2.1, hmain.2.2.2.1,
         hmain.2.2.2.2.1, hmain.2.2.2.2.2⟩

/-- Counterexample to claim C6 as stated: isl_val_mod and isl_val_gcd do
not absorb NaN; both require integer arguments, and on the NaN operand
they raise InvalidArgument and return NULL (modelled by none) rather
than NaN. -/
theorem C6_counterexample :
    isl_val_is_nan isl_val_nan = true ∧
    isl_val_mod isl_val_nan isl_val_one = none ∧
    isl_val_gcd isl_val_nan isl_val_one = none := by decide

/-- Claim C6 (amended): for every pair of values with at least one NaN
operand, isl_val_add, isl_val_sub, isl_val_mul, isl_val_div, isl_val_min
and isl_val_max return NaN, while isl_val_mod and isl_val_gcd, which
require integer arguments, fail with InvalidArgument (return NULL,
modelled none). -/
theorem C6_nan_absorbs (v1 v2 : isl_val)
    (h : isl_val_is_nan v1 = true ∨ isl_val_is_nan v2 = true) :
    isl_val_is_nan (isl_val_add v1 v2) = true ∧
    isl_val_is_nan (isl_val_sub v1 v2) = true ∧
    isl_val_is_nan (isl_val_mul v1 v2) = true ∧
    isl_val_is_nan (isl_val_div v1 v2) = true ∧
    isl_val_is_nan (isl_val_min v1 v2) = true ∧
    isl_val_is_nan (isl_val_max v1 v2) = true ∧
    isl_val_mod v1 v2 = none ∧
    isl_val_gcd v1 v2 = none := by
  by_cases h1 : isl_val_is_nan v1
  · have hd1 : v1.n = 0 ∧ v1.d = 0 := by simpa [isl_val_is_nan] using h1
    have hi : isl_val_is_int v1 = false := by simp [isl_val_is_int, hd1.2]
    refine ⟨?_, ?_, ?_, ?_, ?_, ?_, ?_, ?_⟩ <;>
      simp [isl_val_add, isl_val_sub, isl_val_mul, isl_val_div, isl_val_min,
            isl_val_max, isl_val_mod, isl_val_gcd, h1, hi]
  · have h2 : isl_val_is_nan v2 = true := by
      rcases h with h | h
      · exact absurd h h1
      · exact h
    have hd2 : v2.n = 0 ∧ v2.d = 0 := by simpa [isl_val_is_nan] using h2
    have hi2 : isl_val_is_int v2 = false := by simp [isl_val_is_int, hd2.2]
    refine ⟨?_, ?_, ?_, ?_, ?_, ?_, ?_, ?_⟩ <;>
      simp [isl_val_add, isl_val_sub, isl_val_mul, isl_val_div, isl_val_min,
            isl_val_max, isl_val_mod, isl_val_gcd, h1, h2, hi2]

/-- Witness for C6 at a concrete input. -/
theorem C6_witness :
    isl_val_is_nan isl_val_nan = true ∧
    isl_val_is_nan (isl_val_add isl_val_nan isl_val_one) = true ∧
    isl_val_mod isl_val_nan isl_val_one = none := by
  have hmain := C6_nan_absorbs isl_val_nan isl_val_one (Or.inl (by decide))
  exact ⟨by decide, hmain.1, hmain.2.2.2.2.2.2.1⟩

theorem set_nan_is_nan (x : isl_val) : isl_val_is_nan (isl_val_set_nan x) = true := by
  unfold isl_val_set_nan
  split
  · next hxx => exact hxx
  · rfl

/-- Claim C7: special-value semantics of division.  For every value x that
is not NaN, dividing x by zero yields NaN; dividing an infinity by an
infinity yields NaN; and dividing a finite rational canonical value by an
infinity yields the integer zero. -/
theorem C7_div_special (x z a b v : isl_val)
    (hx : isl_val_is_nan x = false) (hz : isl_val_is_zero z = true)
    (ha : isl_val_is_infty a = true ∨ isl_val_is_neginfty a = true)
    (hb : isl_val_is_infty b = true ∨ isl_val_is_neginfty b = true)
    (hv : canonical v = true) (hvr : isl_val_is_rat v = true) :
    isl_val_is_nan (isl_val_div x z) = true ∧
    isl_val_is_nan (isl_val_div a b) = true ∧
    isl_val_div v b = isl_val_zero := by
  have hzf : z.n = 0 ∧ z.d ≠ 0 := by simpa [isl_val_is_zero] using hz
  have hznan : isl_val_is_nan z = false := by simp [isl_val_is_nan, hzf.2]
  have hbd : b.d = 0 := by
    rcases hb with h | h
    · simp [isl_val_is_infty] at h
      exact h.2
    · simp [isl_val_is_neginfty] at h
      exact h.2
  have hbn : b.n ≠ 0 := by
    rcases hb with h | h
    · simp [isl_val_is_infty] at h
      omega
    · simp [isl_val_is_neginfty] at h
      omega
  have hbnan : isl_val_is_nan b = false := by simp [isl_val_is_nan, hbn]
  have hbzero : isl_val_is_zero b = false := by simp [isl_val_is_zero, hbd]
  have hbrat : isl_val_is_rat b = false := by simp [isl_val_is_rat, hbd]
  have hbinf : (isl_val_is_infty b || isl_val_is_neginfty b) = true := by
    rcases hb with h | h <;> simp [h]
  have had : a.d = 0 := by
    rcases ha with h | h
    · simp [isl_val_is_infty] at h
      exact h.2
    · simp [isl_val_is_neginfty] at h
      exact h.2
  have han : a.n ≠ 0 := by
    rcases ha with h | h
    · simp [isl_val_is_infty] at h
      omega
    · simp [isl_val_is_neginfty] at h
      omega
  have hanan : isl_val_is_nan a = false := by simp [isl_val_is_nan, han]
  have harat : isl_val_is_rat a = false := by simp [isl_val_is_rat, had]
  have hvd : v.d ≠ 0 := by simpa [isl_val_is_rat] using hvr
  have hvnan : isl_val_is_nan v = false := by simp [isl_val_is_nan, hvd]
  have hvinf : isl_val_is_infty v = false := by simp [isl_val_is_infty, hvd]
  have hvninf : isl_val_is_neginfty v = false := by
    simp [isl_val_is_neginfty, hvd]
  refine ⟨?_, ?_, ?_⟩
  · have hstep : isl_val_div x z = isl_val_set_nan x := by
      simp [isl_val_div, hx, hznan, hz]
    rw [hstep]
    exact set_nan_is_nan x
  · have hstep : isl_val_div a b = isl_val_set_nan a := by
      simp [isl_val_div, hanan, hbnan, hbzero, harat, hbrat]
    rw [hstep]
    exact set_nan_is_nan a
  · by_cases hv0 : isl_val_is_zero v
    · have hn0 : v.n = 0 := by
        simp [isl_val_is_zero] at hv0
        exact hv0.1
      have hc : 0 < v.d ∧ Int.gcd v.n v.d = 1 := by
        simpa [canonical, hvd] using hv
      have hd1 : v.d = 1 := by
        have hg := hc.2
        rw [hn0] at hg
        simp [Int.gcd] at hg
        omega
      have hveq : v = isl_val_zero := by
        cases v
        simp_all [isl_val_zero]
      have hz1 : isl_val_is_nan isl_val_zero = false := by decide
      have hz2 : isl_val_is_zero isl_val_zero = true := by decide
      have hz3 : isl_val_is_rat isl_val_zero = true := by decide
      rw [hveq]
      simp [isl_val_div, hz1, hbnan, hz2, hz3, hbzero]
    · have hfalse : isl_val_is_zero v = false := by
        cases hcz : isl_val_is_zero v
        · rfl
        · exact absurd hcz hv0
      have hsz : isl_val_set_zero v = isl_val_zero := by
        unfold isl_val_set_zero isl_val_set_si
        split
        · next hcc =>
          exfalso
          have hcc2 : v.d = 1 ∧ v.n = 0 := by
            simpa [isl_val_is_int] using hcc
          exact hv0 (by simp [isl_val_is_zero, hcc2.1, hcc2.2])
        · rfl
      have hstep : isl_val_div v b = isl_val_set_zero v := by
        simp [isl_val_div, hvnan, hbnan, hbzero, hvr, hfalse, hvinf, hvninf,
              hbinf]
      rw [hstep, hsz]

/-- Witness for C7 at concrete inputs: one divided by zero is NaN, plus
infinity divided by minus infinity is NaN, and one half divided by minus
infinity is the integer zero. -/
theorem C7_witness :
    isl_val_is_nan (isl_val_div isl_val_one isl_val_zero) = true ∧
    isl_val_is_nan (isl_val_div isl_val_infty isl_val_neginfty) = true ∧
    isl_val_div ⟨1, 2⟩ isl_val_neginfty = isl_val_zero := by
  have hmain := C7_div_special isl_val_one isl_val_zero isl_val_infty
    isl_val_neginfty ⟨1, 2⟩ (by decide) (by decide) (Or.inl (by decide))
    (Or.inr (by decide)) (by decide) (by decide)
  exact ⟨hmain.1, hmain.2.1, hmain.2.2⟩

/-- Claim C8: canonical form is an invariant of the value type.  Every
section 4.1 operation embedded here, applied to canonical arguments,
returns canonical results: an integer has denominator one, a non-integer
rational is reduced with positive denominator, and the three denominator
zero states are the infinities and NaN.  In particular the results of
add, sub, mul and div of two rationals are returned fully normalized. -/
theorem C8_canonical_invariant (v1 v2 : isl_val) (u : Nat) (i : Int)
    (f : Int → Bool) (h1 : canonical v1 = true) (h2 : canonical v2 = true) :
    canonical (isl_val_add v1 v2) = true ∧
    canonical (isl_val_sub v1 v2) = true ∧
    canonical (isl_val_mul v1 v2) = true ∧
    canonical (isl_val_div v1 v2) = true ∧
    canonical (isl_val_min v1 v2) = true ∧
    canonical (isl_val_max v1 v2) = true ∧
    canonical (isl_val_neg v1) = true ∧
    canonical (isl_val_abs v1) = true ∧
    canonical (isl_val_floor v1) = true ∧
    canonical (isl_val_ceil v1) = true ∧
    canonical (isl_val_trunc v1) = true ∧
    canonical (isl_val_add_ui v1 u) = true ∧
    canonical (isl_val_sub_ui v1 u) = true ∧
    canonical (isl_val_mul_ui v1 u) = true ∧
    canonical_opt (isl_val_2exp f v1) = true ∧
    canonical_opt (isl_val_mod v1 v2) = true ∧
    canonical_opt (isl_val_gcd v1 v2) = true ∧
    canonical_opt3 (isl_val_gcdext v1 v2) = true ∧
    canonical isl_val_zero = true ∧
    canonical isl_val_one = true ∧
    canonical isl_val_nan = true ∧
    canonical isl_val_infty = true ∧
    canonical isl_val_neginfty = true ∧
    canonical (isl_val_int_from_si i) = true :=
  ⟨canonical_add h1 h2, canonical_sub h1 h2, canonical_mul h1 h2,
   canonical_div h1 h2, canonical_min h1 h2, canonical_max h1 h2,
   canonical_neg h1, canonical_abs h1, canonical_floor h1, canonical_ceil h1,
   canonical_trunc h1, canonical_add_ui u h1, canonical_sub_ui u h1,
   canonical_mul_ui u h1, canonical_2exp f h1, canonical_mod h1,
   canonical_gcd h1 h2, canonical_gcdext h1,
   by decide, by decide, by decide, by decide, by decide,
   canonical_of_d_one rfl⟩

/-- Witness for C8 at concrete inputs. -/
theorem C8_witness :
    canonical (⟨1, 2⟩ : isl_val) = true ∧ canonical (⟨3, 1⟩ : isl_val) = true ∧
    canonical (isl_val_add ⟨1, 2⟩ ⟨3, 1⟩) = true ∧
    canonical (isl_val_div ⟨1, 2⟩ ⟨3, 1⟩) = true := by
  have hmain := C8_canonical_invariant ⟨1, 2⟩ ⟨3, 1⟩ 2 5 (fun _ => true)
    (by decide) (by decide)
  exact ⟨by decide, by decide, hmain.1, hmain.2.2.2.1⟩

/-!
Second part: the lexmin engine of src/isl_tab_pip.c.

The tableau record keeps the fields of struct isl_tab that the embedded
functions read or write.  A row of the matrix is index 0 = denominator,
index 1 = constant, index 2 = coefficient of the big parameter M when the
tableau has one, and the column coefficients start at offset 2 plus M.
The per-variable records are the var_is_row, var_index and var_is_nonneg
maps; row_is_nonneg row is the is_nonneg field of the variable returned
by isl_tab_var_from_row for that row, and col_var is the variable sitting
in each column (negative for a constraint).  The external tableau
primitives of section 4.2 (isl_tab_pivot, isl_tab_mark_empty, snapshot
and rollback, isl_tab_get_sample_value) are implemented outside src/;
isl_tab_pivot and isl_tab_get_sample_value are taken as parameters of the
functions that call them, and the others are modelled from the spec
below.
-/

/-- Row sign classification, from enum isl_tab_row_sign. -/
inductive isl_tab_row_sign where
  | unknown
  | pos
  | neg
  | any
deriving DecidableEq, BEq

/-- The undo-covered state of a tableau, from struct isl_tab. -/
structure isl_tab where
  M : Bool
  n_row : Nat
  n_col : Nat
  n_redundant : Nat
  n_dead : Nat
  n_param : Nat
  n_var : Nat
  n_div : Nat
  mat : Nat → Nat → Int
  col_var : Nat → Int
  var_is_row : Nat → Bool
  var_index : Nat → Nat
  var_is_nonneg : Nat → Bool
  row_is_nonneg : Nat → Bool
  has_row_sign : Bool
  row_sign : Nat → isl_tab_row_sign
  empty : Bool

/-- The column offset 2 + tab.M used throughout the C file. -/
def tab_off (t : isl_tab) : Nat := if t.M then 3 else 2

/-- Modelled from the spec: isl_tab_mark_empty is a section 4.2 tableau
primitive implemented outside src/; it puts the tableau in the terminal
empty state and no further mutation happens. -/
def isl_tab_mark_empty (t : isl_tab) : isl_tab := { t with empty := true }

/-- Translation of is_obviously_neg: the parametric constant of the row is
negative without consulting the context.  With a big parameter the sign
of its coefficient decides; otherwise the constant must be negative and
every non-zero parameter or div coefficient must be negative and belong
to a variable known non-negative. -/
def is_obviously_neg (t : isl_tab) (row : Nat) : Bool :=
  if t.M && decide (0 < t.mat row 2) then false
  else if t.M && decide (t.mat row 2 < 0) then true
  else if decide (0 ≤ t.mat row 1) then false
  else
    ((List.range t.n_param).all fun i =>
      if t.var_is_row i then true
      else if t.mat row (tab_off t + t.var_index i) == 0 then true
      else t.var_is_nonneg i &&
           !decide (0 < t.mat row (tab_off t + t.var_index i)))
    &&
    ((List.range t.n_div).all fun i =>
      if t.var_is_row (t.n_var - t.n_div + i) then true
      else if t.mat row (tab_off t + t.var_index (t.n_var - t.n_div + i)) == 0
        then true
      else t.var_is_nonneg (t.n_var - t.n_div + i) &&
           !decide (0 < t.mat row
                      (tab_off t + t.var_index (t.n_var - t.n_div + i))))

/-- The row sign write performed inside first_neg when it returns a row
while the row sign array exists: the sign of the returned row is negative
(either it already was, or it is set on the spot). -/
def set_row_sign_neg (t : isl_tab) (row : Nat) : isl_tab :=
  if t.has_row_sign then
    { t with row_sign := fun r =>
        if r == row then isl_tab_row_sign.neg else t.row_sign r }
  else t

/-- Translation of first_neg: return the first known violated constraint,
a non-negative row that is obviously negative or recorded negative.  With
a big parameter, rows with negative M coefficient are returned first
(without a row sign write).  The returned tableau carries the row sign
update made inside the C function. -/
def first_neg (t : isl_tab) : Option (isl_tab × Nat) :=
  let rows := List.range' t.n_redundant (t.n_row - t.n_redundant)
  match (if t.M then
           rows.find? (fun row =>
             t.row_is_nonneg row && decide (t.mat row 2 < 0))
         else none) with
  | some row => some (t, row)
  | none =>
    match rows.find? (fun row =>
        t.row_is_nonneg row &&
        (if t.has_row_sign then
           (t.row_sign row == isl_tab_row_sign.neg) ||
           (t.row_sign row == isl_tab_row_sign.unknown && is_obviously_neg t row)
         else is_obviously_neg t row)) with
    | some row => some (set_row_sign_neg t row, row)
    | none => none

/-- Does column j hold a parameter or a div variable (those columns are
not eligible for a lexmin pivot)? -/
def col_is_param_or_div (t : isl_tab) (j : Nat) : Bool :=
  decide (0 ≤ t.col_var j) &&
  (decide (t.col_var j < (t.n_param : Int)) ||
   decide (((t.n_var - t.n_div : Nat) : Int) ≤ t.col_var j))

/-- Translation of the loop body of lexmin_col_pair over the list of
non-parameter variable indices. -/
def lexmin_col_pair_aux (t : isl_tab) (row col1 col2 : Nat) :
    List Nat → Int
  | [] => -1
  | i :: rest =>
    if !t.var_is_row i then
      if t.var_index i == col1 then (col2 : Int)
      else if t.var_index i == col2 then (col1 : Int)
      else lexmin_col_pair_aux t row col1 col2 rest
    else if t.var_index i == row then lexmin_col_pair_aux t row col1 col2 rest
    else
      let r := t.var_index i
      let s1 := Int.sign (t.mat r (tab_off t + col1))
      let s2 := Int.sign (t.mat r (tab_off t + col2))
      if s1 == 0 && s2 == 0 then lexmin_col_pair_aux t row col1 col2 rest
      else if decide (s1 < s2) then (col1 : Int)
      else if decide (s2 < s1) then (col2 : Int)
      else
        let tmp := t.mat r (tab_off t + col2) * t.mat row (tab_off t + col1) -
                   t.mat r (tab_off t + col1) * t.mat row (tab_off t + col2)
        if decide (0 < tmp) then (col1 : Int)
        else if decide (tmp < 0) then (col2 : Int)
        else lexmin_col_pair_aux t row col1 col2 rest

/-- Translation of lexmin_col_pair: of two candidate columns, the one that
gives the lexicographically smallest increment of the sample, or minus
one when no variable separates them. -/
def lexmin_col_pair (t : isl_tab) (row col1 col2 : Nat) : Int :=
  lexmin_col_pair_aux t row col1 col2
    (List.range' t.n_param (t.n_var - t.n_div - t.n_param))

/-- Translation of the loop of lexmin_pivot_col with the current best
column carried along (n_col when none found yet, negative on error). -/
def lexmin_pivot_col_aux (t : isl_tab) (row : Nat) :
    List Nat → Int → Int
  | [], col => col
  | j :: rest, col =>
    if col_is_param_or_div t j then lexmin_pivot_col_aux t row rest col
    else if !decide (0 < t.mat row (tab_off t + j)) then
      lexmin_pivot_col_aux t row rest col
    else
      let col2 := if col == (t.n_col : Int) then (j : Int)
                  else lexmin_col_pair t row col.toNat j
      if decide (col2 < 0) then -1
      else lexmin_pivot_col_aux t row rest col2

/-- Translation of lexmin_pivot_col: find the column that results in the
lexicographically smallest positive increment of the sample point; the
result is n_col when no column has a positive entry and minus one on
error. -/
def lexmin_pivot_col (t : isl_tab) (row : Nat) : Int :=
  lexmin_pivot_col_aux t row
    (List.range' t.n_dead (t.n_col - t.n_dead)) (t.n_col : Int)

/-- Translation of the pivoting loop of restore_lexmin.  The external
isl_tab_pivot primitive is the parameter pivot; the fuel bounds the
number of loop iterations and none models only its exhaustion or the C
error return (negative column from lexmin_pivot_col). -/
def restore_lexmin_loop (pivot : isl_tab → Nat → Nat → isl_tab) :
    Nat → isl_tab → Option isl_tab
  | 0, _ => none
  | fuel + 1, t =>
    match first_neg t with
    | none => some t
    | some (t1, row) =>
      let col := lexmin_pivot_col t1 row
      if decide ((t1.n_col : Int) ≤ col) then some (isl_tab_mark_empty t1)
      else if decide (col < 0) then none
      else restore_lexmin_loop pivot fuel (pivot t1 row col.toNat)

/-- Translation of restore_lexmin: resolve all known violated constraints
by pivoting; when a violated row has no pivot column the tableau is
infeasible and is marked empty and returned as a normal value. -/
def restore_lexmin (pivot : isl_tab → Nat → Nat → isl_tab) (fuel : Nat)
    (t : isl_tab) : Option isl_tab :=
  if t.empty then some t else restore_lexmin_loop pivot fuel t

/-- Translation of isl_int_is_divisible_by: is a divisible by b?  The GMP
convention for b = 0 (divisible only when a = 0) is matched by emod. -/
def is_divisible (a b : Int) : Bool := Int.emod a b == 0

/-- Translation of integer_constant. -/
def integer_constant (t : isl_tab) (row : Nat) : Bool :=
  is_divisible (t.mat row 1) (t.mat row 0)

/-- Translation of integer_parameter: the coefficients of all parameter
and div columns are divisible by the denominator. -/
def integer_parameter (t : isl_tab) (row : Nat) : Bool :=
  ((List.range t.n_param).all fun i =>
    if t.var_is_row i then true
    else is_divisible (t.mat row (tab_off t + t.var_index i)) (t.mat row 0))
  &&
  ((List.range t.n_div).all fun i =>
    if t.var_is_row (t.n_var - t.n_div + i) then true
    else is_divisible
      (t.mat row (tab_off t + t.var_index (t.n_var - t.n_div + i)))
      (t.mat row 0))

/-- Translation of integer_variable: the coefficients of all columns that
do not hold a parameter or div are divisible by the denominator. -/
def integer_variable (t : isl_tab) (row : Nat) : Bool :=
  (List.range t.n_col).all fun j =>
    if col_is_param_or_div t j then true
    else is_divisible (t.mat row (tab_off t + j)) (t.mat row 0)

/-- The I_CST, I_PAR, I_VAR flags set by first_non_integer. -/
structure non_integer_flags where
  cst : Bool
  par : Bool
  var : Bool
deriving DecidableEq

/-- Translation of first_non_integer: scan the non-parameter variables in
rows; for the first one whose sample value is non-integer (constant and
parameter part not both integral) return its row and the three
integrality flags. -/
def first_non_integer (t : isl_tab) : Option (Nat × non_integer_flags) :=
  (List.range' t.n_param (t.n_var - t.n_div - t.n_param)).findSome? fun i =>
    if !t.var_is_row i then none
    else
      let row := t.var_index i
      let cst := integer_constant t row
      let par := integer_parameter t row
      if cst && par then none
      else some (row, ⟨cst, par, integer_variable t row⟩)

/-- The content of the constraint row appended by add_cut, as a function
of the raw matrix index: denominator of the source row, negated floor
remainder of the negated constant, zero for the big parameter column, and
the floor remainder of every column coefficient. -/
def add_cut_row (t : isl_tab) (row k : Nat) : Int :=
  if k = 0 then t.mat row 0
  else if k = 1 then -(Int.fmod (-(t.mat row 1)) (t.mat row 0))
  else if t.M = true ∧ k = 2 then 0
  else if tab_off t ≤ k ∧ k < tab_off t + t.n_col then
    Int.fmod (t.mat row k) (t.mat row 0)
  else 0

/-- Translation of add_cut: append a Gomory cut row for the given row.
The external isl_tab_allocate_con primitive is modelled from the spec: it
appends a fresh constraint whose row index is the old n_row.  The new row
is filled exactly as in the C function, the new constraint is marked
is_nonneg, and when the row sign array exists the sign of the new row is
set to negative.  The pair returned is the new tableau and the row index
of the cut (the C function returns that index). -/
def add_cut (t : isl_tab) (row : Nat) : isl_tab × Nat :=
  ({ t with
     n_row := t.n_row + 1,
     mat := fun r k => if r == t.n_row then add_cut_row t row k else t.mat r k,
     row_is_nonneg := fun r => if r == t.n_row then true else t.row_is_nonneg r,
     row_sign := fun r =>
       if t.has_row_sign && r == t.n_row then isl_tab_row_sign.neg
       else t.row_sign r },
   t.n_row)

/-- Translation of cut_to_integer_lexmin: add cuts and restore lexmin
feasibility until the sample point is integral, the tableau is found
integer infeasible (marked empty, a normal value), or it becomes empty
during restoration. -/
def cut_to_integer_lexmin (pivot : isl_tab → Nat → Nat → isl_tab) :
    Nat → isl_tab → Option isl_tab
  | 0, _ => none
  | fuel + 1, t =>
    if t.empty then some t
    else
      match first_non_integer t with
      | none => some t
      | some (row, flags) =>
        if flags.var then some (isl_tab_mark_empty t)
        else
          match restore_lexmin pivot (fuel + 1) (add_cut t row).1 with
          | none => none
          | some t2 =>
            if t2.empty then some t2
            else cut_to_integer_lexmin pivot fuel t2

/-- Translation of sample_is_finite: without a big parameter every sample
is finite; with one, every variable must be basic and the coefficient of
M in its row must equal the denominator. -/
def sample_is_finite (t : isl_tab) : Bool :=
  if !t.M then true
  else (List.range t.n_var).all fun i =>
    t.var_is_row i && (t.mat (t.var_index i) 0 == t.mat (t.var_index i) 2)

/-- The context tableau state seen by context_is_feasible: the
undo-covered tableau, plus the sample matrix fields of struct isl_tab
(samples rows and n_sample, with n_outside marking dropped samples),
which are kept apart because the sample rows appended by
context_is_feasible are written without an undo record. -/
structure context_tab_state where
  tab : isl_tab
  samples : List (List Int)
  n_sample : Nat
  n_outside : Nat

/-- Modelled from the spec: isl_tab_snap returns a token for the current
undo-covered state of the tableau (section 4.2 and the undo stack of
section 9); the token is modelled as that state itself. -/
def isl_tab_snap (c : context_tab_state) : isl_tab := c.tab

/-- Modelled from the spec: isl_tab_rollback pops and reverses the undo
records down to the token, restoring basis, rows and constraints.  The
sample rows appended directly by context_is_feasible have no undo record
and stay. -/
def isl_tab_rollback (c : context_tab_state) (snap : isl_tab) :
    context_tab_state :=
  { c with tab := snap }

/-- Translation of context_is_feasible: snapshot the context tableau, push
the basis, run cut_to_integer_lexmin to completion; if the result is a
non-empty tableau whose sample is finite, extend the sample matrix by the
current sample value (the external isl_tab_get_sample_value primitive is
the parameter get_sample_value) and increment n_sample; record
feasibility as non-emptiness, roll the tableau back to the snapshot and
return the flag.  The C error return (null tableau) is none. -/
def context_is_feasible (pivot : isl_tab → Nat → Nat → isl_tab)
    (get_sample_value : isl_tab → List Int) (fuel : Nat)
    (c : context_tab_state) : Option (Bool × context_tab_state) :=
  let snap := isl_tab_snap c
  match cut_to_integer_lexmin pivot fuel c.tab with
  | none => none
  | some t =>
    let c1 : context_tab_state := { c with tab := t }
    let c2 : context_tab_state :=
      if !t.empty && sample_is_finite t then
        { c1 with samples := c1.samples ++ [get_sample_value t],
                  n_sample := c1.n_sample + 1 }
      else c1
    let feasible := !t.empty
    some (feasible, isl_tab_rollback c2 snap)

/-- Claim C3: discovering infeasibility never raises an error.  When
restore_lexmin finds a violated non-negative row (first_neg returns a
row, with its row sign write t1) for which lexmin_pivot_col yields no
eligible column with a positive entry (the returned column is n_col), the
tableau is converted to the terminal empty state by isl_tab_mark_empty
and returned as a normal value, not as the error value; and the driver
cut_to_integer_lexmin passes that empty tableau through as the normal
no-solution leaf. -/
theorem C3_infeasible_marks_empty
    (pivot : isl_tab → Nat → Nat → isl_tab) (fuel : Nat)
    (t t1 : isl_tab) (row : Nat)
    (hne : t.empty = false)
    (hrow : first_neg t = some (t1, row))
    (hcol : lexmin_pivot_col t1 row = (t1.n_col : Int)) :
    restore_lexmin pivot (fuel + 1) t = some (isl_tab_mark_empty t1) ∧
    (isl_tab_mark_empty t1).empty = true ∧
    cut_to_integer_lexmin pivot (fuel + 1) (isl_tab_mark_empty t1) =
      some (isl_tab_mark_empty t1) := by
  refine ⟨?_, rfl, ?_⟩
  · unfold restore_lexmin
    rw [hne]
    simp only [Bool.false_eq_true, if_false]
    unfold restore_lexmin_loop
    rw [hrow]
    simp [hcol]
  · unfold cut_to_integer_lexmin
    simp [isl_tab_mark_empty]

/-- A concrete one-variable tableau whose single constraint row is
violated and admits no pivot column. -/
def c3_tab : isl_tab where
  M := false
  n_row := 1
  n_col := 1
  n_redundant := 0
  n_dead := 0
  n_param := 0
  n_var := 1
  n_div := 0
  mat := fun r k =>
    if r == 0 && k == 0 then 1 else if r == 0 && k == 1 then -1 else 0
  col_var := fun _ => -1
  var_is_row := fun _ => true
  var_index := fun _ => 0
  var_is_nonneg := fun _ => false
  row_is_nonneg := fun _ => true
  has_row_sign := false
  row_sign := fun _ => isl_tab_row_sign.unknown
  empty := false

/-- Witness for C3 at the concrete tableau c3_tab. -/
theorem C3_witness :
    c3_tab.empty = false ∧
    first_neg c3_tab = some (c3_tab, 0) ∧
    lexmin_pivot_col c3_tab 0 = (c3_tab.n_col : Int) ∧
    restore_lexmin (fun t _ _ => t) 1 c3_tab =
      some (isl_tab_mark_empty c3_tab) := by
  have hmain := C3_infeasible_marks_empty (fun t _ _ => t) 0 c3_tab c3_tab 0
    rfl rfl rfl
  exact ⟨rfl, rfl, rfl, hmain.1⟩

/-- Claim C4: postcondition of the non-parametric Gomory cut.  For a row
with positive denominator m, add_cut appends a new constraint row at
index n_row whose denominator is m, whose constant term is the negated
non-negative remainder of the negated constant modulo m, whose big
parameter coefficient is zero when M is present, and whose column
coefficients are the remainders of the source coefficients modulo m,
each non-negative and below m; the new row is marked is_nonneg and, when
the row sign array exists, its row sign is set to negative. -/
theorem C4_add_cut_spec (t : isl_tab) (row : Nat)
    (hm : 0 < t.mat row 0) :
    (add_cut t row).2 = t.n_row ∧
    (add_cut t row).1.n_row = t.n_row + 1 ∧
    (add_cut t row).1.mat t.n_row 0 = t.mat row 0 ∧
    (add_cut t row).1.mat t.n_row 1 =
      -(Int.fmod (-(t.mat row 1)) (t.mat row 0)) ∧
    (t.M = true → (add_cut t row).1.mat t.n_row 2 = 0) ∧
    (∀ j, j < t.n_col →
      (add_cut t row).1.mat t.n_row (tab_off t + j) =
        Int.fmod (t.mat row (tab_off t + j)) (t.mat row 0) ∧
      0 ≤ (add_cut t row).1.mat t.n_row (tab_off t + j) ∧
      (add_cut t row).1.mat t.n_row (tab_off t + j) < t.mat row 0) ∧
    (add_cut t row).1.row_is_nonneg t.n_row = true ∧
    (t.has_row_sign = true →
      (add_cut t row).1.row_sign t.n_row = isl_tab_row_sign.neg) := by
  have hoff : 2 ≤ tab_off t := by
    unfold tab_off
    split <;> omega
  have hmat : ∀ k, (add_cut t row).1.mat t.n_row k = add_cut_row t row k := by
    intro k
    simp [add_cut]
  refine ⟨rfl, rfl, ?_, ?_, ?_, ?_, ?_, ?_⟩
  · rw [hmat]
    rfl
  · rw [hmat]
    rfl
  · intro hM
    rw [hmat]
    unfold add_cut_row
    rw [if_neg (by omega), if_neg (by omega), if_pos ⟨hM, rfl⟩]
  · intro j hj
    have hcol : (add_cut t row).1.mat t.n_row (tab_off t + j) =
        Int.fmod (t.mat row (tab_off t + j)) (t.mat row 0) := by
      rw [hmat]
      unfold add_cut_row
      rw [if_neg (by omega), if_neg (by omega), if_neg ?hM2,
          if_pos ⟨by omega, by omega⟩]
      case hM2 =>
        rintro ⟨hMM, hk⟩
        have h3 : tab_off t = 3 := by simp [tab_off, hMM]
        omega
    refine ⟨hcol, ?_, ?_⟩
    · rw [hcol]
      exact Int.fmod_nonneg' _ hm
    · rw [hcol]
      exact Int.fmod_lt_of_pos _ hm
  · simp [add_cut]
  · intro hs
    simp [add_cut, hs]

/-- A concrete parametric tableau with one row of denominator two. -/
def c4_tab : isl_tab where
  M := true
  n_row := 1
  n_col := 2
  n_redundant := 0
  n_dead := 0
  n_param := 0
  n_var := 2
  n_div := 0
  mat := fun r k =>
    if r == 0 then
      if k == 0 then 2 else if k == 1 then 1 else if k == 2 then 2
      else if k == 3 then 3 else if k == 4 then -5 else 0
    else 0
  col_var := fun _ => -1
  var_is_row := fun _ => true
  var_index := fun _ => 0
  var_is_nonneg := fun _ => false
  row_is_nonneg := fun _ => false
  has_row_sign := true
  row_sign := fun _ => isl_tab_row_sign.unknown
  empty := false

/-- Witness for C4 at the concrete tableau c4_tab: the appended cut row is
(2, -1, 0, 1, 1), it is marked non-negative and its sign is negative. -/
theorem C4_witness :
    0 < c4_tab.mat 0 0 ∧
    (add_cut c4_tab 0).2 = 1 ∧
    (add_cut c4_tab 0).1.n_row = 2 ∧
    (add_cut c4_tab 0).1.mat 1 0 = 2 ∧
    (add_cut c4_tab 0).1.mat 1 1 = -1 ∧
    (add_cut c4_tab 0).1.mat 1 2 = 0 ∧
    (add_cut c4_tab 0).1.mat 1 3 = 1 ∧
    (add_cut c4_tab 0).1.mat 1 4 = 1 ∧
    (add_cut c4_tab 0).1.row_is_nonneg 1 = true ∧
    (add_cut c4_tab 0).1.row_sign 1 = isl_tab_row_sign.neg := by
  have hmain := C4_add_cut_spec c4_tab 0 (by decide)
  have hcols := hmain.2.2.2.2.2.1
  exact ⟨by decide, hmain.1, hmain.2.1, hmain.2.2.1, hmain.2.2.2.1,
         hmain.2.2.2.2.1 rfl, (hcols 0 (by decide)).1, (hcols 1 (by decide)).1,
         hmain.2.2.2.2.2.2.1, hmain.2.2.2.2.2.2.2 rfl⟩

/-- Claim C5: context_is_feasible returns true exactly when running
cut_to_integer_lexmin on the context tableau reaches a non-empty tableau;
on return the context tableau is rolled back to the snapshot taken at
entry, except that when a finite integer sample was found the sample
matrix keeps the recorded sample and n_sample is incremented. -/
theorem C5_context_is_feasible_spec
    (pivot : isl_tab → Nat → Nat → isl_tab)
    (get_sample_value : isl_tab → List Int) (fuel : Nat)
    (c : context_tab_state) (t2 : isl_tab)
    (hrun : cut_to_integer_lexmin pivot fuel c.tab = some t2) :
    context_is_feasible pivot get_sample_value fuel c =
      some (!t2.empty,
        if !t2.empty && sample_is_finite t2 then
          ⟨c.tab, c.samples ++ [get_sample_value t2], c.n_sample + 1,
           c.n_outside⟩
        else ⟨c.tab, c.samples, c.n_sample, c.n_outside⟩) := by
  unfold context_is_feasible isl_tab_snap isl_tab_rollback
  rw [hrun]
  by_cases hc : (!t2.empty && sample_is_finite t2) = true
  · simp [hc]
  · simp [hc]

/-- A concrete non-empty context tableau with an integral sample. -/
def c5_tab : isl_tab where
  M := false
  n_row := 1
  n_col := 1
  n_redundant := 0
  n_dead := 0
  n_param := 0
  n_var := 1
  n_div := 0
  mat := fun r k =>
    if r == 0 && k == 0 then 1 else if r == 0 && k == 1 then 4 else 0
  col_var := fun _ => -1
  var_is_row := fun _ => true
  var_index := fun _ => 0
  var_is_nonneg := fun _ => false
  row_is_nonneg := fun _ => false
  has_row_sign := false
  row_sign := fun _ => isl_tab_row_sign.unknown
  empty := false

/-- A concrete context state around c5_tab with no samples yet. -/
def c5_ctx : context_tab_state := ⟨c5_tab, [], 0, 0⟩

/-- Witness for C5 at the concrete context c5_ctx: the run is feasible,
the tableau is rolled back, and the sample [7] is recorded with n_sample
incremented. -/
theorem C5_witness :
    cut_to_integer_lexmin (fun t _ _ => t) 1 c5_ctx.tab = some c5_ctx.tab ∧
    context_is_feasible (fun t _ _ => t) (fun _ => [7]) 1 c5_ctx =
      some (true, ⟨c5_ctx.tab, [[7]], 1, 0⟩) := by
  have hmain := C5_context_is_feasible_spec (fun t _ _ => t) (fun _ => [7]) 1
    c5_ctx c5_tab rfl
  exact ⟨rfl, hmain⟩
